import Mathlib

/-!
Shallow embedding of `gourde/gourde.py` (iksaif/gourde), the Flask bootstrap
wrapper.  The `Gourde` class is modelled as a record of its instance fields
together with the registered routes and an explicit model of the Flask app
logger; its methods become pure functions on that record.  Effects of external
collaborators (package-version lookup, presence of a static folder, the Sentry
DSN from the environment) are passed in as explicit arguments, and Python
exceptions are modelled with `Except`.
-/

namespace GourdeSpec

/-- Python truthiness of an optional string (`None` and the empty string are
falsy, every other string is truthy). -/
def strTruthy : Option String → Bool
  | none => false
  | some s => decide (s ≠ "")

/-- Python truthiness of an optional integer (`None` and `0` are falsy). -/
def intTruthy : Option Int → Bool
  | none => false
  | some n => decide (n ≠ 0)

/-- A Python exception escaping a modelled call. -/
inductive PyErr where
  /-- `TypeError` raised by calling `callee` without its required positional
  argument `param`. -/
  | typeErrorMissingArg (callee : String) (param : String)
  deriving DecidableEq

/-- An HTTP response as returned by a Flask view: body and status code. -/
structure HttpResponse where
  body : String
  status : Nat
  deriving DecidableEq

/-- Outcome of one call to an `is_healthy` / `is_ready` override: either the
returned boolean, or a raised exception carrying its textual representation
(what `str(e)` evaluates to). -/
inductive CheckOutcome where
  | ok (b : Bool)
  | raises (text : String)
  deriving DecidableEq

/-- Model of the call `self.app.logger.exception()` in `healthy` / `ready`
(gourde.py lines 152 and 169).  `logging.Logger.exception(msg, *args, **kwargs)`
has a required positional parameter `msg`, so the zero-argument call raises
`TypeError` before any log record is emitted; it can never return a record
list. -/
def loggerExceptionNoArgs : Except PyErr (List String) :=
  .error (.typeErrorMissingArg "Logger.exception" "msg")

/-- Default `Gourde.is_healthy` (gourde.py line 140): `return True`. -/
def is_healthy : CheckOutcome := .ok true

/-- Default `Gourde.is_ready` (gourde.py line 157): `return True`. -/
def is_ready : CheckOutcome := .ok true

/-- The `Gourde.healthy` view (gourde.py lines 143-155), wrapping one call to
`is_healthy` whose outcome is `check`.  On success it returns the error-level
log records emitted by the handler together with the response; an exception
escaping the handler is an `Except.error`. -/
def healthy (check : CheckOutcome) : Except PyErr (List String × HttpResponse) :=
  match check with
  | .ok true => .ok ([], ⟨"OK", 200⟩)
  | .ok false => .ok ([], ⟨"FAIL", 500⟩)
  | .raises e =>
    match loggerExceptionNoArgs with
    | .error te => .error te
    | .ok logs => .ok (logs, ⟨e, 500⟩)

/-- The `Gourde.ready` view (gourde.py lines 160-172), wrapping one call to
`is_ready` whose outcome is `check`; same shape as `healthy`. -/
def ready (check : CheckOutcome) : Except PyErr (List String × HttpResponse) :=
  match check with
  | .ok true => .ok ([], ⟨"OK", 200⟩)
  | .ok false => .ok ([], ⟨"FAIL", 500⟩)
  | .raises e =>
    match loggerExceptionNoArgs with
    | .error te => .error te
    | .ok logs => .ok (logs, ⟨e, 500⟩)

/-- `Gourde.LOG_FORMAT` (gourde.py lines 29-32). -/
def LOG_FORMAT : String :=
  "[%(asctime)s] %(levelname)s %(module)s [%(filename)s:%(funcName)s:%(lineno)d] (%(thread)d): %(message)s"

/-- Observable state of `self.app.logger` together with the pieces of Flask
configuration that `setup_logging` touches: the formatter format of each
attached stream handler, the configured threshold (as a level name), the
`LOGGER_HANDLER_POLICY` config entry, the `propagate` flag, and the info
messages emitted so far. -/
structure AppLogger where
  handlers : List String
  level : Option String
  handlerPolicy : Option String
  propagate : Bool
  infos : List String
  deriving DecidableEq

/-- `Gourde.setup_logging` (gourde.py lines 94-107).  A falsy `log_level`
(absent or empty) returns immediately; otherwise the handler policy is set to
`never`, propagation enabled, one stream handler with `LOG_FORMAT` appended
(`addHandler` adds, it never replaces), the threshold set to the resolved
level, and one info message emitted. -/
def setup_logging (st : AppLogger) (log_level : Option String) : AppLogger :=
  if strTruthy log_level then
    { st with
      handlerPolicy := some "never"
      propagate := true
      handlers := st.handlers ++ [LOG_FORMAT]
      level := log_level
      infos := st.infos ++ ["Logging initialized."] }
  else
    st

/-- The argument bundle consumed by `Gourde.setup`: the attributes read from
`args` (gourde.py lines 68-73), with optionality as produced by
`get_argparser`. -/
structure Args where
  host : Option String
  port : Int
  debug : Bool
  log_level : Option String
  twisted : Bool
  threads : Option Int
  deriving DecidableEq

/-- Defaults of the options declared in `Gourde.get_argparser`
(gourde.py lines 77-92), collected as an argument bundle: no `--host` default,
`--port` 9050, `--debug` false, `--log-level` INFO, `--twisted` false,
`--threads` none. -/
def argparserDefaults : Args :=
  { host := none
    port := 9050
    debug := false
    log_level := some "INFO"
    twisted := false
    threads := none }

/-- The labels of the `app_info` metric registered by `setup_prometheus`. -/
structure AppInfo where
  version : String
  appname : String
  deriving DecidableEq

/-- Instance state of a `Gourde` object: the fields assigned in `__init__` and
mutated by `setup` / `setup_prometheus` / `setup_sentry`, plus the routes
registered with the Flask app. -/
structure Gourde where
  name : String
  host : Option String
  port : Int
  debug : Bool
  log_level : Option String
  twisted : Bool
  threads : Option Int
  metrics : Bool
  app_info : Option AppInfo
  is_setup : Bool
  routes : List (String × String)
  logger : AppLogger
  sentry : Bool
  deriving DecidableEq

/-- Field initialisation and route registration of `Gourde.__init__`
(gourde.py lines 46-59): the default field values and the four
`add_url_rule` calls, the favicon one only when the Flask app reports a
static folder.  `setup_prometheus` and `setup_sentry`, which `__init__` calls
next, are modelled separately below. -/
def initState (name : String) (has_static_folder : Bool) (logger0 : AppLogger) : Gourde :=
  { name := name
    host := some "127.0.0.1"
    port := 8080
    debug := false
    log_level := none
    twisted := false
    threads := none
    metrics := false
    app_info := none
    is_setup := false
    routes :=
      [("/", "status"), ("/-/healthy", "health"), ("/-/ready", "ready")]
        ++ (if has_static_folder then [("/favicon.ico", "favicon")] else [])
    logger := logger0
    sentry := false }

/-- An exception raised by `pkg_resources.require`: the distribution for the
app name is not installed (`DistributionNotFound`), or an installed
distribution conflicts with a requirement (`VersionConflict`). -/
inductive PkgErr where
  | distributionNotFound
  | versionConflict
  deriving DecidableEq

/-- `self.metrics.info('app_info', ..., version=version, appname=self.app.name)`
followed by the confirmation log (gourde.py lines 116-118). -/
def registerAppInfo (g : Gourde) (version : String) : Gourde :=
  { g with
    app_info := some ⟨version, g.name⟩
    logger := { g.logger with infos := g.logger.infos ++ ["Prometheus is enabled."] } }

/-- `Gourde.setup_prometheus` (gourde.py lines 109-118).  `require_result` is
the outcome of `pkg_resources.require(self.app.name)[0].version`.  The
`try/except` catches only `DistributionNotFound` (replacing the version with
the literal `unknown`); any other exception propagates. -/
def setup_prometheus (g : Gourde) (require_result : Except PkgErr String) :
    Except PkgErr Gourde :=
  let g := { g with metrics := true }
  match require_result with
  | .ok version => .ok (registerAppInfo g version)
  | .error .distributionNotFound => .ok (registerAppInfo g "unknown")
  | .error .versionConflict => .error .versionConflict

/-- `Gourde.setup_sentry` (gourde.py lines 120-127).  `env_dsn` models
`os.getenv` for the DSN variable and `sentryAvailable` whether the Sentry
client imported; with no client or no truthy DSN it is a silent no-op. -/
def setup_sentry (g : Gourde) (sentry_dsn : Option String) (env_dsn : Option String)
    (sentryAvailable : Bool) : Gourde :=
  let dsn := if strTruthy sentry_dsn then sentry_dsn else env_dsn
  if !sentryAvailable || !strTruthy dsn then
    g
  else
    { g with
      sentry := true
      logger := { g.logger with infos := g.logger.infos ++ ["Sentry is enabled."] } }

/-- The whole of `Gourde.__init__` (gourde.py lines 34-62): field and route
initialisation, then `setup_prometheus(registry)`, then
`setup_sentry(sentry_dsn=None)`. -/
def init (name : String) (has_static_folder : Bool) (logger0 : AppLogger)
    (require_result : Except PkgErr String) (env_dsn : Option String)
    (sentryAvailable : Bool) : Except PkgErr Gourde :=
  match setup_prometheus (initState name has_static_folder logger0) require_result with
  | .error e => .error e
  | .ok g => .ok (setup_sentry g none env_dsn sentryAvailable)

/-- `Gourde.setup` with an explicit (non-`None`) argument bundle
(gourde.py lines 64-75): copy the six attributes from `args`, run
`setup_logging(self.log_level)`, set `is_setup`. -/
def setup (g : Gourde) (args : Args) : Gourde :=
  let g := { g with
    host := args.host
    port := args.port
    debug := args.debug
    log_level := args.log_level
    twisted := args.twisted
    threads := args.threads }
  let g := { g with logger := setup_logging g.logger g.log_level }
  { g with is_setup := true }

/-- The call `self.app.run(host=..., port=..., debug=..., threaded=...)` made
by `run_with_werkzeug`. -/
structure WerkzeugCall where
  host : Option String
  port : Int
  debug : Bool
  threaded : Bool
  deriving DecidableEq

/-- What `run_with_twisted` does before and at `twisted.run`:
`poolSuggestion` is the argument of `reactor.suggestThreadPoolSize` when that
call is made (before the reactor starts), `stderrLogging` whether
`log.startLogging(sys.stderr)` runs (before the reactor starts). -/
structure TwistedCall where
  host : Option String
  port : Int
  debug : Bool
  poolSuggestion : Option Int
  stderrLogging : Bool
  deriving DecidableEq

/-- `Gourde.run_with_werkzeug` (gourde.py lines 190-194):
`threaded = self.threads is not None and (self.threads > 0)`. -/
def run_with_werkzeug (g : Gourde) : WerkzeugCall :=
  { host := g.host
    port := g.port
    debug := g.debug
    threaded :=
      match g.threads with
      | none => false
      | some n => decide (0 < n) }

/-- `Gourde.run_with_twisted` (gourde.py lines 196-208):
`if self.threads: reactor.suggestThreadPoolSize(self.threads)` and
`if self.log_level: log.startLogging(sys.stderr)`, then `twisted.run`. -/
def run_with_twisted (g : Gourde) : TwistedCall :=
  { host := g.host
    port := g.port
    debug := g.debug
    poolSuggestion := if intTruthy g.threads then g.threads else none
    stderrLogging := strTruthy g.log_level }

/-- The server strategy `run` dispatches to. -/
inductive RunDispatch where
  | werkzeug (call : WerkzeugCall)
  | twisted (call : TwistedCall)
  deriving DecidableEq

/-- `Gourde.run` (gourde.py lines 181-188).  The guard
`if not self.is_setup: self.setup()` calls `setup` with zero arguments, but
`setup` (line 64) declares a required positional parameter `args` with no
default, so in Python that call raises
`TypeError: setup() missing 1 required positional argument` before anything
else happens; otherwise `run` dispatches on `self.twisted`. -/
def run (g : Gourde) : Except PyErr RunDispatch :=
  if !g.is_setup then
    .error (.typeErrorMissingArg "Gourde.setup" "args")
  else if !g.twisted then
    .ok (.werkzeug (run_with_werkzeug g))
  else
    .ok (.twisted (run_with_twisted g))

/-- A Flask app logger with nothing attached, used as a concrete starting
state in witnesses. -/
def emptyLogger : AppLogger :=
  { handlers := [], level := none, handlerPolicy := none, propagate := false, infos := [] }

/-- A concrete freshly-constructed `Gourde` used in witnesses and
counterexamples. -/
def sampleGourde : Gourde := initState "gourde" false emptyLogger

/-- C1: the claim fails on the code.  When an `is_healthy` / `is_ready`
override raises an error `E` (here with text `db down`), the except-branch
first runs `self.app.logger.exception()`; `Logger.exception` requires a
positional `msg` argument, so that call raises `TypeError`, which escapes the
handler before `return str(e), 500` is reached: the response is not
`(str(E), 500)`, `E` is never logged, and a fault does propagate past the
handler. -/
theorem healthy_ready_raise_propagates_typeError :
    healthy (.raises "db down")
        = .error (.typeErrorMissingArg "Logger.exception" "msg")
      ∧ ready (.raises "db down")
        = .error (.typeErrorMissingArg "Logger.exception" "msg") :=
  ⟨rfl, rfl⟩

/-- C2: an override returning `true` yields `(OK, 200)` (and no error-level
log), one returning `false` yields `(FAIL, 500)`, for both `healthy` and
`ready`; the unoverridden `is_healthy` / `is_ready` return `true`, hence the
default handlers yield `(OK, 200)`. -/
theorem check_true_ok_check_false_fail :
    healthy (.ok true) = .ok ([], ⟨"OK", 200⟩)
      ∧ healthy (.ok false) = .ok ([], ⟨"FAIL", 500⟩)
      ∧ ready (.ok true) = .ok ([], ⟨"OK", 200⟩)
      ∧ ready (.ok false) = .ok ([], ⟨"FAIL", 500⟩)
      ∧ is_healthy = .ok true
      ∧ is_ready = .ok true
      ∧ healthy is_healthy = .ok ([], ⟨"OK", 200⟩)
      ∧ ready is_ready = .ok ([], ⟨"OK", 200⟩) :=
  ⟨rfl, rfl, rfl, rfl, rfl, rfl, rfl, rfl⟩

/-- C3: the claim fails on the code.  On a freshly constructed `Gourde`
(`is_setup` false), `run` executes `if not self.is_setup: self.setup()`, but
`setup` declares a required positional parameter `args`, so the zero-argument
call raises `TypeError`: no implicit setup happens and no server strategy is
ever dispatched. -/
theorem run_without_setup_raises_typeError :
    ∀ (name : String) (hs : Bool) (lg : AppLogger),
      run (initState name hs lg) = .error (.typeErrorMissingArg "Gourde.setup" "args") :=
  fun _ _ _ => rfl

/-- C9 counterexample: not every version-resolution failure is non-fatal.
When `pkg_resources.require` fails with `VersionConflict` (which the
`try/except` around it does not catch), `setup_prometheus` propagates the
exception instead of registering `app_info` with version `unknown`, so
construction aborts. -/
theorem version_conflict_is_fatal :
    setup_prometheus sampleGourde (Except.error PkgErr.versionConflict)
      = Except.error PkgErr.versionConflict :=
  rfl

/-- C9 amended: a version-resolution failure with `DistributionNotFound` is
non-fatal — `app_info` is registered with the literal version `unknown` and
construction continues (routes and the rest of the state untouched); a
successful lookup registers the resolved version.  Other resolution failures
(`VersionConflict`) propagate. -/
theorem distribution_not_found_nonfatal :
    ∀ (g : Gourde) (v : String),
      (∃ g2, setup_prometheus g (.error .distributionNotFound) = .ok g2
        ∧ g2.app_info = some ⟨"unknown", g.name⟩
        ∧ g2.routes = g.routes
        ∧ g2.is_setup = g.is_setup)
      ∧ (∃ g2, setup_prometheus g (.ok v) = .ok g2
        ∧ g2.app_info = some ⟨v, g.name⟩) :=
  fun g v =>
    ⟨⟨registerAppInfo { g with metrics := true } "unknown", rfl, rfl, rfl, rfl⟩,
     ⟨registerAppInfo { g with metrics := true } v, rfl, rfl⟩⟩

/-- C10: a freshly constructed, never-configured `Gourde` has host
`127.0.0.1`, port 8080, debug off, twisted off, no thread count and
`is_setup` false — and this pre-setup state differs from the command-line
defaults of `get_argparser` (no host, port 9050, log level INFO). -/
theorem fresh_state_defaults :
    ∀ (name : String) (hs : Bool) (lg : AppLogger),
      (initState name hs lg).host = some "127.0.0.1"
        ∧ (initState name hs lg).port = 8080
        ∧ (initState name hs lg).debug = false
        ∧ (initState name hs lg).twisted = false
        ∧ (initState name hs lg).threads = none
        ∧ (initState name hs lg).is_setup = false
        ∧ (initState name hs lg).host ≠ argparserDefaults.host
        ∧ (initState name hs lg).port ≠ argparserDefaults.port
        ∧ (initState name hs lg).log_level ≠ argparserDefaults.log_level := by
  intro name hs lg
  refine ⟨rfl, rfl, rfl, rfl, rfl, rfl, ?_, ?_, ?_⟩ <;>
    simp [initState, argparserDefaults]

/-- C4: under the default (werkzeug) strategy the `threaded` flag passed to
`app.run` is true exactly when a thread count is present and strictly
positive; in particular an absent count or a count of 0 yields non-threaded
dispatch and a count of 4 yields threaded dispatch. -/
theorem werkzeug_threaded_iff_positive_threads :
    ∀ g : Gourde,
      ((run_with_werkzeug g).threaded = true ↔ ∃ n : Int, g.threads = some n ∧ 0 < n)
        ∧ (run_with_werkzeug { g with threads := none }).threaded = false
        ∧ (run_with_werkzeug { g with threads := some 0 }).threaded = false
        ∧ (run_with_werkzeug { g with threads := some 4 }).threaded = true := by
  intro g
  refine ⟨?_, rfl, by simp [run_with_werkzeug], by simp [run_with_werkzeug]⟩
  cases h : g.threads with
  | none => simp [run_with_werkzeug, h]
  | some n => simp [run_with_werkzeug, h]

/-- C5: under the twisted strategy, a configured positive thread count `n`
makes `reactor.suggestThreadPoolSize(n)` run before the reactor starts, a
configured (truthy) log level makes `log.startLogging(sys.stderr)` run before
the reactor starts, and a thread count of 8 suggests a pool size of 8. -/
theorem twisted_pool_size_and_stderr_logging :
    ∀ (g : Gourde) (n : Int) (s : String),
      (g.threads = some n → 0 < n → (run_with_twisted g).poolSuggestion = some n)
        ∧ (g.log_level = some s → s ≠ "" → (run_with_twisted g).stderrLogging = true)
        ∧ (run_with_twisted { g with threads := some 8 }).poolSuggestion = some 8 := by
  intro g n s
  refine ⟨?_, ?_, ?_⟩
  · intro ht hn
    have hne : n ≠ 0 := ne_of_gt hn
    simp [run_with_twisted, intTruthy, ht, hne]
  · intro hl hs
    simp [run_with_twisted, strTruthy, hl, hs]
  · simp [run_with_twisted, intTruthy]

/-- C5 witness: the theorem applied at a concrete `Gourde` with thread count
8 and log level INFO. -/
theorem twisted_pool_size_and_stderr_logging_witness :
    (run_with_twisted { sampleGourde with threads := some 8 }).poolSuggestion = some 8
      ∧ (run_with_twisted { sampleGourde with log_level := some "INFO" }).stderrLogging
          = true :=
  ⟨(twisted_pool_size_and_stderr_logging
      { sampleGourde with threads := some 8 } 8 "INFO").1 rfl (by norm_num),
   (twisted_pool_size_and_stderr_logging
      { sampleGourde with log_level := some "INFO" } 8 "INFO").2.1 rfl (by decide)⟩

/-- C6: `setup` with an explicit argument bundle stores the six configuration
attributes exactly as given (no defaults substituted), runs `setup_logging`
on the app logger before returning, and sets `is_setup`. -/
theorem setup_stores_bundle_exactly :
    ∀ (g : Gourde) (args : Args),
      (setup g args).host = args.host
        ∧ (setup g args).port = args.port
        ∧ (setup g args).debug = args.debug
        ∧ (setup g args).log_level = args.log_level
        ∧ (setup g args).twisted = args.twisted
        ∧ (setup g args).threads = args.threads
        ∧ (setup g args).logger = setup_logging g.logger args.log_level
        ∧ (setup g args).is_setup = true :=
  fun _ _ => ⟨rfl, rfl, rfl, rfl, rfl, rfl, rfl, rfl⟩

/-- C7: the status route, the healthy route and the ready route are
registered at construction time for every `Gourde`, the favicon route is
registered exactly when the Flask app has a static folder, and `setup` leaves
the registered routes unchanged, so they exist even if `setup` is never
called. -/
theorem routes_registered_at_construction :
    ∀ (name : String) (hs : Bool) (lg : AppLogger),
      ("/", "status") ∈ (initState name hs lg).routes
        ∧ ("/-/healthy", "health") ∈ (initState name hs lg).routes
        ∧ ("/-/ready", "ready") ∈ (initState name hs lg).routes
        ∧ (("/favicon.ico", "favicon") ∈ (initState name hs lg).routes ↔ hs = true)
        ∧ ∀ args : Args, (setup (initState name hs lg) args).routes
            = (initState name hs lg).routes := by
  intro name hs lg
  refine ⟨?_, ?_, ?_, ?_, fun _ => rfl⟩ <;> cases hs <;> simp [initState]

/-- C8: `setup_logging` with an absent or empty level returns with the
logging state completely unchanged; with a non-empty level it appends exactly
one stream handler carrying `LOG_FORMAT` and sets the threshold to that
level; a second call with a non-empty level appends another handler rather
than replacing the first. -/
theorem setup_logging_skip_attach_accumulate :
    (∀ st : AppLogger, setup_logging st none = st)
      ∧ (∀ st : AppLogger, setup_logging st (some "") = st)
      ∧ ∀ (st : AppLogger) (s : String), s ≠ "" →
          (setup_logging st (some s)).handlers = st.handlers ++ [LOG_FORMAT]
            ∧ (setup_logging st (some s)).level = some s
            ∧ (setup_logging (setup_logging st (some s)) (some s)).handlers
                = st.handlers ++ [LOG_FORMAT, LOG_FORMAT] := by
  refine ⟨fun st => rfl, fun st => rfl, ?_⟩
  intro st s hs
  refine ⟨?_, ?_, ?_⟩ <;> simp [setup_logging, strTruthy, hs]

/-- C8 witness: the theorem applied at the empty logger state with level
INFO. -/
theorem setup_logging_skip_attach_accumulate_witness :
    (setup_logging emptyLogger (some "INFO")).handlers = [LOG_FORMAT]
      ∧ (setup_logging emptyLogger (some "INFO")).level = some "INFO"
      ∧ (setup_logging (setup_logging emptyLogger (some "INFO")) (some "INFO")).handlers
          = [LOG_FORMAT, LOG_FORMAT] := by
  have h := setup_logging_skip_attach_accumulate.2.2 emptyLogger "INFO" (by decide)
  exact ⟨h.1, h.2.1, h.2.2⟩

end GourdeSpec
